import Mathlib

/-!
# CodLess motion control & calibration core — verification development

Shallow embedding of the CodLess operator console's core (command dispatch and
calibration compensation, calibration state machine, recording/playback engine,
and the motion physics engine) together with proofs about it.

Conventions of the embedding:
* C++ `double` values are modelled as exact numbers: `ℚ` for the discrete
  control layer (dispatch, calibration, recording, playback) and
  `ℝ` for the physics engine, whose damping/trigonometric terms are
  transcendental.
* `QVariantHash` / `QJsonObject` are modelled as association lists enumerated
  in a fixed order; `QVariant` is modelled by the four value kinds the
  recording path produces and the serializer handles.
* Qt timers are modelled as pending-delay fields; emitted Qt signals are
  returned as explicit event lists.
-/

namespace CodLess

/-- Model of `QVariant` restricted to the value kinds occurring in commands
(`QString`, `int`, `double`, `bool`) — exactly the four kinds
`RecordedCommand::toJson` serializes. -/
inductive QVar where
  | vStr (s : String)
  | vInt (n : Int)
  | vDouble (q : ℚ)
  | vBool (b : Bool)
deriving Repr, DecidableEq

/-- Embeds `QVariant::toDouble`: numeric variants convert, `bool` converts to 0/1,
non-numeric strings convert to 0 (command strings are never numeric). -/
def QVar.toDouble : QVar → ℚ
  | .vStr _ => 0
  | .vInt n => (n : ℚ)
  | .vDouble q => q
  | .vBool b => if b then 1 else 0

/-- Embeds `QVariant::toString` for the string kind; other kinds are never read as
strings by the dispatch/recording code paths we embed. -/
def QVar.toQString : QVar → String
  | .vStr s => s
  | _ => ""

/-- Qt `QVariant::operator==`: same-kind comparison, with numeric kinds
(`int`/`double`) compared by value after conversion. -/
def QVar.qeq : QVar → QVar → Bool
  | .vStr a, .vStr b => a == b
  | .vInt a, .vInt b => a == b
  | .vDouble a, .vDouble b => a == b
  | .vBool a, .vBool b => a == b
  | .vInt a, .vDouble b => (a : ℚ) == b
  | .vDouble a, .vInt b => a == (b : ℚ)
  | _, _ => false

/-- Embeds `QVariantHash` as an association list in a fixed enumeration order. -/
abbrev VarHash := List (String × QVar)

/-- Lookup, `h[k]`; a missing key yields Qt's invalid `QVariant`. -/
def hashGet (h : VarHash) (k : String) : Option QVar :=
  match h with
  | [] => none
  | (k', v) :: rest => if k' == k then some v else hashGet rest k

/-- Embeds `command[k].toDouble()`: an invalid `QVariant` converts to `0.0`. -/
def toDoubleAt (h : VarHash) (k : String) : ℚ :=
  match hashGet h k with
  | none => 0
  | some v => v.toDouble

/-- Embeds `command[k].toString()`: an invalid `QVariant` converts to `""`. -/
def toStringAt (h : VarHash) (k : String) : String :=
  match hashGet h k with
  | none => ""
  | some v => v.toQString

/-- Embeds `h[k] = v`: replace the value at an existing key, insert otherwise. -/
def hashSet (h : VarHash) (k : String) (v : QVar) : VarHash :=
  match h with
  | [] => [(k, v)]
  | (k', v') :: rest =>
      if k' == k then (k, v) :: rest else (k', v') :: hashSet rest k v

/-- Embeds `QJsonValue` restricted to the kinds `RecordedCommand::toJson` emits.
`QJsonValue` stores every number (including ones built from `int`) as a JSON
number, for which `isDouble()` holds. -/
inductive JVal where
  | jStr (s : String)
  | jNum (q : ℚ)
  | jBool (b : Bool)
deriving Repr, DecidableEq

/-- A JSON object (`QJsonObject`) as an association list. -/
abbrev JObj := List (String × JVal)

/-- Embeds `RecordedCommand` (core/recorded_command.h): a timestamp in seconds since
recording start, a command-type tag, and the parameter map. -/
structure RecordedCommand where
  timestamp : ℚ
  commandType : String
  parameters : VarHash
deriving Repr, DecidableEq

/-- The parameter-serialization loop of `RecordedCommand::toJson`: each entry
is written by kind (`QString`→string, `int`→number, `double`→number,
`bool`→bool).  The C++ if-chain silently drops any other variant kind; our
`QVar` has no other kinds. -/
def serializeParams : VarHash → JObj
  | [] => []
  | (k, .vStr s) :: rest => (k, .jStr s) :: serializeParams rest
  | (k, .vInt n) :: rest => (k, .jNum (n : ℚ)) :: serializeParams rest
  | (k, .vDouble q) :: rest => (k, .jNum q) :: serializeParams rest
  | (k, .vBool b) :: rest => (k, .jBool b) :: serializeParams rest

/-- The parameter-deserialization loop of `RecordedCommand::fromJson`:
strings load as string variants, every JSON number loads as a `double`
variant (`value.toDouble()`), booleans as `bool` variants. -/
def deserializeParams : JObj → VarHash
  | [] => []
  | (k, .jStr s) :: rest => (k, .vStr s) :: deserializeParams rest
  | (k, .jNum q) :: rest => (k, .vDouble q) :: deserializeParams rest
  | (k, .jBool b) :: rest => (k, .vBool b) :: deserializeParams rest

/-- The `QJsonObject` produced by `RecordedCommand::toJson`: fixed keys
`timestamp`, `command_type`, `parameters`. -/
structure RCJson where
  timestamp : ℚ
  command_type : String
  parameters : JObj
deriving Repr, DecidableEq

/-- Embeds `RecordedCommand::toJson`. -/
def RecordedCommand.toJson (c : RecordedCommand) : RCJson :=
  { timestamp := c.timestamp
    command_type := c.commandType
    parameters := serializeParams c.parameters }

/-- Embeds `RecordedCommand::fromJson` (on an object produced by `toJson`). -/
def RecordedCommand.fromJson (j : RCJson) : RecordedCommand :=
  { timestamp := j.timestamp
    commandType := j.command_type
    parameters := deserializeParams j.parameters }

/-- Embeds `QVariantHash::operator==` for hashes enumerated in matching order:
pointwise key equality and Qt value equality. -/
def varHashEq : VarHash → VarHash → Bool
  | [], [] => true
  | (k, v) :: r, (k', v') :: r' => k == k' && v.qeq v' && varHashEq r r'
  | _, _ => false

/-- Embeds `RecordedCommand::operator==`: equal timestamp, command type and
parameter map. -/
def RecordedCommand.eq (a b : RecordedCommand) : Bool :=
  a.timestamp == b.timestamp && a.commandType == b.commandType &&
    varHashEq a.parameters b.parameters

/-! ## RobotConfig and calibration compensation (command dispatcher) -/

/-- The calibration-derived slice of `RobotConfig` (core/robot_config.h) read
and written by the dispatch and calibration code under verification; purely
physical parameters (axle track, ports, …) are omitted as they are never read
by these paths. Defaults are the C++ in-class initializers. -/
structure RobotConfig where
  isCalibrated : Bool := false
  calibrationDate : String := ""
  leftMotorSpeedFactor : ℚ := 1
  rightMotorSpeedFactor : ℚ := 1
  turnAccuracyFactor : ℚ := 1
  straightDriftCorrection : ℚ := 0
  motorResponseTime : ℚ := 0
  calibrationQuality : ℚ := 0
deriving Repr, DecidableEq

/-- Embeds `RobotConfig::hasValidCalibration`. -/
def RobotConfig.hasValidCalibration (c : RobotConfig) : Bool :=
  c.isCalibrated && !(c.calibrationDate == "") && decide (c.calibrationQuality > 0)

/-- The compensation block of `MainWindow::executeCommand`: when the config
has a valid calibration and the command is a drive command, rescale the speed
by the two motor speed factors, scale a non-zero turn rate by the turn
accuracy factor, and override a zero turn rate by the straight drift
correction when driving; otherwise the command passes through unmodified. -/
def compensate (cfg : RobotConfig) (cmd : VarHash) : VarHash :=
  if cfg.hasValidCalibration then
    if toStringAt cmd "type" == "drive" then
      let speed := toDoubleAt cmd "speed"
      let turnRate := toDoubleAt cmd "turn_rate"
      let c1 :=
        if speed > 0 then
          hashSet cmd "speed"
            (.vDouble ((speed * cfg.leftMotorSpeedFactor +
                        speed * cfg.rightMotorSpeedFactor) / 2))
        else if speed < 0 then
          hashSet cmd "speed"
            (.vDouble ((speed * cfg.leftMotorSpeedFactor +
                        speed * cfg.rightMotorSpeedFactor) / 2))
        else cmd
      let c2 :=
        if turnRate ≠ 0 then
          hashSet c1 "turn_rate" (.vDouble (turnRate * cfg.turnAccuracyFactor))
        else c1
      if speed ≠ 0 ∧ turnRate = 0 then
        hashSet c2 "turn_rate" (.vDouble cfg.straightDriftCorrection)
      else c2
    else cmd
  else cmd

/-! ## Recording session state (undo / redo) -/

/-- The recording-session slice of `MainWindow` state.  Snapshot histories
are kept most-recent-first: `QVector::push_back`/`back`/`pop_back` act at the
growing end and map to cons/head/tail, and `erase(begin())` removes the
oldest snapshot and maps to `dropLast`. -/
structure RecState where
  isRecording : Bool
  currentRecording : List RecordedCommand
  undoHistory : List (List RecordedCommand)
  redoHistory : List (List RecordedCommand)
deriving Repr, DecidableEq

/-- Embeds `MainWindow::saveRecordingState`: snapshot the buffer onto the undo
stack, clear the redo stack, and evict the oldest snapshot past
`MAX_HISTORY = 20`. -/
def saveRecordingState (s : RecState) : RecState :=
  if s.isRecording then
    let undo1 := s.currentRecording :: s.undoHistory
    let undo2 := if undo1.length > 20 then undo1.dropLast else undo1
    { s with undoHistory := undo2, redoHistory := [] }
  else s

/-- Embeds `MainWindow::undoLastAction`. -/
def undoLastAction (s : RecState) : RecState :=
  match s.undoHistory, s.isRecording with
  | prev :: rest, true =>
      { s with
        redoHistory := s.currentRecording :: s.redoHistory
        currentRecording := prev
        undoHistory := rest }
  | _, _ => s

/-- Embeds `MainWindow::redoLastAction`. -/
def redoLastAction (s : RecState) : RecState :=
  match s.redoHistory, s.isRecording with
  | nxt :: rest, true =>
      { s with
        undoHistory := s.currentRecording :: s.undoHistory
        currentRecording := nxt
        redoHistory := rest }
  | _, _ => s

/-- Embeds `MainWindow::toggleRecording`: stopping freezes the buffer; starting
clears it and restarts the elapsed clock. -/
def toggleRecording (s : RecState) : RecState :=
  if s.isRecording then { s with isRecording := false }
  else { s with isRecording := true, currentRecording := [] }

/-- The recording block at the end of `MainWindow::executeCommand`: while
recording, snapshot the state for undo and append the original command with
the current elapsed timestamp. -/
def recordCommand (s : RecState) (timestamp : ℚ) (cmd : VarHash) : RecState :=
  if s.isRecording then
    let s1 := saveRecordingState s
    { s1 with
      currentRecording :=
        s1.currentRecording ++ [⟨timestamp, toStringAt cmd "type", cmd⟩] }
  else s

/-- Embeds `MainWindow::executeCommand`: compensate, send the compensated command to
the active execution target (returned as the first component), and append the
original command to an active recording. -/
def executeCommand (cfg : RobotConfig) (s : RecState) (timestamp : ℚ)
    (cmd : VarHash) : VarHash × RecState :=
  (compensate cfg cmd, recordCommand s timestamp cmd)

/-! ## Calibration state machine (utils/calibration_manager.cpp) -/

/-- Embeds `CalibrationManager::CalibrationStep`. -/
inductive CalibrationStep where
  | stepNotStarted
  | stepMotorResponseTime
  | stepStraightTracking
  | stepTurnAccuracy
  | stepGyroscopeCalibration
  | stepMotorBalance
  | stepFinalization
  | stepCompleted
deriving Repr, DecidableEq

/-- The C++ enum value of a step (used by the default `"Step %1"` name). -/
def CalibrationStep.idx : CalibrationStep → Nat
  | .stepNotStarted => 0
  | .stepMotorResponseTime => 1
  | .stepStraightTracking => 2
  | .stepTurnAccuracy => 3
  | .stepGyroscopeCalibration => 4
  | .stepMotorBalance => 5
  | .stepFinalization => 6
  | .stepCompleted => 7

/-- Embeds `CalibrationManager::CalibrationResult`. -/
structure CalibrationResult where
  success : Bool := false
  stepName : String := ""
  measuredValue : ℚ := 0
  units : String := ""
  description : String := ""
  confidence : ℚ := 0
deriving Repr, DecidableEq

/-- Signals emitted by `CalibrationManager`. -/
inductive CalEvent where
  | started
  | stepChanged (step : CalibrationStep) (description : String)
  | progress (percentage : Int)
  | stepCompleted (result : CalibrationResult)
  | completedRun (config : RobotConfig)
  | failed (reason : String)
deriving Repr, DecidableEq

/-- Embeds `CalibrationManager` state.  The BLE controller pointer is `none` when
null, `some c` with `c` its `isConnected()` value otherwise.  The two
single-shot timers are modelled by their pending delay in milliseconds. -/
structure CalState where
  isDeveloperMode : Bool := false
  bleController : Option Bool := none
  calibrationRunning : Bool := false
  currentStep : CalibrationStep := .stepNotStarted
  calibrationResults : List CalibrationResult := []
  currentRetry : Nat := 0
  calibratedConfig : RobotConfig := {}
  stepTimer : Option Int := none
  timeoutTimer : Option Int := none
deriving Repr, DecidableEq

/-- Embeds `CalibrationManager::maxRetries`. -/
def maxRetries : Nat := 3

/-- Embeds `CalibrationManager::QUALITY_THRESHOLD`. -/
def QUALITY_THRESHOLD : ℚ := 75

/-- Embeds `CalibrationManager::canCalibrate`: developer/simulation mode active, or
a BLE controller reporting connected. -/
def canCalibrate (s : CalState) : Bool :=
  s.isDeveloperMode || (match s.bleController with
                        | some connected => connected
                        | none => false)

/-- The failure reason emitted by `CalibrationManager::startCalibration` when
the entry guard fails. -/
def cannotCalibrateMsg : String :=
  "Cannot perform calibration.\n\nRequirements not met:\n• No robot connected\n• Developer mode disabled\n\nTo calibrate, either:\n• Connect to a real robot, OR\n• Enable developer mode for simulation"

/-- Embeds `CalibrationManager::resetCalibration` (measurement buffers that no
verified claim reads are not part of the modelled state). -/
def resetCalibration (s : CalState) : CalState :=
  { s with
    currentStep := .stepNotStarted
    calibrationResults := []
    currentRetry := 0
    calibratedConfig := {} }

/-- Embeds `CalibrationManager::startCalibration`: a duplicate start is a warning
no-op; failing the entry guard emits a descriptive failure and changes
nothing; otherwise reset, mark running, enter `StepMotorResponseTime` and
schedule the first step after 100 ms. -/
def startCalibration (s : CalState) : CalState × List CalEvent :=
  if s.calibrationRunning then (s, [])
  else if !canCalibrate s then (s, [.failed cannotCalibrateMsg])
  else
    let s1 := resetCalibration s
    ({ s1 with
        calibrationRunning := true
        currentStep := .stepMotorResponseTime
        stepTimer := some 100 },
      [.started, .progress 0])

/-- The per-step display name assigned by the `switch` in
`CalibrationManager::completeCurrentStep` (default: the pre-set
`"Step %1"`). -/
def stepDisplayName (step : CalibrationStep) : String :=
  match step with
  | .stepMotorResponseTime => "Motor Response Time"
  | .stepStraightTracking => "Straight Tracking"
  | .stepTurnAccuracy => "Turn Accuracy"
  | .stepGyroscopeCalibration => "Gyroscope Drift"
  | .stepMotorBalance => "Motor Balance"
  | _ => "Step " ++ toString step.idx

/-- The per-step units assigned by the same `switch` (default `""`). -/
def stepUnits (step : CalibrationStep) : String :=
  match step with
  | .stepMotorResponseTime => "ms"
  | .stepStraightTracking => "°"
  | .stepTurnAccuracy => "factor"
  | .stepGyroscopeCalibration => "°/s"
  | .stepMotorBalance => "factor"
  | _ => ""

/-- Embeds `CalibrationManager::nextStep`: reset the retry counter, advance the
strictly ordered step sequence, and schedule the next step after 500 ms. -/
def nextStep (s : CalState) : CalState :=
  let step' : CalibrationStep :=
    match s.currentStep with
    | .stepMotorResponseTime => .stepStraightTracking
    | .stepStraightTracking => .stepTurnAccuracy
    | .stepTurnAccuracy => .stepGyroscopeCalibration
    | .stepGyroscopeCalibration => .stepMotorBalance
    | .stepMotorBalance => .stepFinalization
    | .stepFinalization => .stepCompleted
    | _ => .stepCompleted
  { s with currentRetry := 0, currentStep := step', stepTimer := some 500 }

/-- The abort reason `"Step failed after %1 attempts: %2"` with
`%1 = maxRetries` and `%2` the step's failure description. -/
def stepFailedMsg (description : String) : String :=
  "Step failed after " ++ toString maxRetries ++ " attempts: " ++ description

/-- The `CalibrationResult` recorded by `completeCurrentStep`: tagged with
the step's display name and units, confidence 0.9 on success and 0 on
failure. -/
def stepResult (step : CalibrationStep) (success : Bool) (measuredValue : ℚ)
    (description : String) : CalibrationResult :=
  { success := success
    stepName := stepDisplayName step
    measuredValue := measuredValue
    units := stepUnits step
    description := description
    confidence := if success then 9/10 else 0 }

/-- Embeds `CalibrationManager::completeCurrentStep`: stop the watchdog, record a
result tagged with step name/units (confidence 0.9 on success, 0 on
failure), then on success advance after 500 ms; on failure increment the
retry counter and either retry the same step after 1000 ms or, with the cap
exhausted, abort the whole run. -/
def completeCurrentStep (s : CalState) (success : Bool) (measuredValue : ℚ)
    (description : String) : CalState × List CalEvent :=
  let s0 := { s with timeoutTimer := none }
  let result := stepResult s.currentStep success measuredValue description
  let s1 := { s0 with calibrationResults := s0.calibrationResults ++ [result] }
  if success then
    (nextStep s1, [.stepCompleted result])
  else
    let retry' := s1.currentRetry + 1
    if retry' < maxRetries then
      ({ s1 with currentRetry := retry', stepTimer := some 1000 },
        [.stepCompleted result])
    else
      ({ s1 with currentRetry := retry', calibrationRunning := false },
        [.stepCompleted result, .failed (stepFailedMsg description)])

/-- The quality score computed by `CalibrationManager::finalizeCalibration`:
mean confidence over the successful results, times 100 (0 when there is no
successful result). -/
def qualityScore (results : List CalibrationResult) : ℚ :=
  let successResults := results.filter (·.success)
  if successResults.length > 0 then
    (successResults.map (·.confidence)).sum / successResults.length * 100
  else 0

/-- The rejection reason `"Calibration quality too low: %1%"` (numeric
formatting abstracted by `toString`). -/
def qualityTooLowMsg (score : ℚ) : String :=
  "Calibration quality too low: " ++ toString score ++ "%"

/-- The summary result appended by an accepted Finalization. -/
def finalQualityResult (score : ℚ) : CalibrationResult :=
  { success := true
    stepName := "Calibration Complete"
    measuredValue := score
    units := "%"
    description := "Overall calibration quality: " ++ toString score ++ "%"
    confidence := score / 100 }

/-- Embeds `CalibrationManager::finalizeCalibration`.  The current wall-clock date
string is passed in as `dateStr`; the numeric formatting inside the two
messages is abstracted by `toString`.  Note the order of operations in the
source: `isCalibrated`, `calibrationDate` and `calibrationQuality` are
assigned *before* the quality check, so a rejected run still leaves the
internal config marked calibrated. -/
def finalizeCalibration (dateStr : String) (s : CalState) :
    CalState × List CalEvent :=
  let score := qualityScore s.calibrationResults
  let s1 :=
    { s with
      calibratedConfig :=
        { s.calibratedConfig with
          isCalibrated := true
          calibrationDate := dateStr
          calibrationQuality := score } }
  if score < QUALITY_THRESHOLD then
    (s1, [.failed (qualityTooLowMsg score)])
  else
    let finalResult := finalQualityResult score
    ({ s1 with
        calibrationResults := s1.calibrationResults ++ [finalResult]
        currentStep := .stepCompleted
        stepTimer := some 100 },
      [.stepCompleted finalResult])

/-! ## Playback engine (the 20 ms poll tick in `MainWindow::setupConnections`) -/

/-- The playback slice of `MainWindow` state; `timerActive` models whether
the 20 ms poll timer is running. -/
structure PlaybackState where
  isPlayingBack : Bool
  playbackCommands : List RecordedCommand
  playbackIndex : Nat
  timerActive : Bool
deriving Repr, DecidableEq

/-- The dispatch `while` loop of the playback tick on the commands from the
cursor onward: dispatch while the head command's timestamp has come due,
returning the dispatched commands in log order and how far the cursor
advanced. -/
def playLoop (elapsed : ℚ) : List RecordedCommand → List RecordedCommand × Nat
  | [] => ([], 0)
  | c :: rest =>
      if c.timestamp ≤ elapsed then
        let (fired, n) := playLoop elapsed rest
        (c :: fired, n + 1)
      else ([], 0)

/-- One playback poll tick (`currentTime` is elapsed seconds since playback
start).  Returns the new state, the parameter maps handed to
`executeCommand` in order, and the status messages logged.  The C++
`playbackIndex < 0` half of the defensive bounds check cannot fire with a
`Nat` index. -/
def playbackTick (s : PlaybackState) (currentTime : ℚ) :
    PlaybackState × List VarHash × List String :=
  if !s.isPlayingBack || s.playbackCommands.isEmpty then
    ({ s with timerActive := false }, [], [])
  else if s.playbackIndex ≥ s.playbackCommands.length then
    ({ s with isPlayingBack := false, timerActive := false }, [],
      ["Playback stopped due to index error"])
  else
    let (fired, n) := playLoop currentTime (s.playbackCommands.drop s.playbackIndex)
    let index' := s.playbackIndex + n
    let executed := fired.map (·.parameters)
    if index' ≥ s.playbackCommands.length then
      ({ s with playbackIndex := index', isPlayingBack := false,
                timerActive := false },
        executed, ["Playback completed"])
    else
      ({ s with playbackIndex := index' }, executed, [])

/-! ## Motion physics engine (sim/robot_simulator.cpp)

The engine works on exact reals; its damping factor uses `Real.exp` and the
position integration uses `Real.cos`/`Real.sin`, so these definitions are
necessarily noncomputable and are reasoned about through bounds. -/

/-- Physical constants of `RobotSimulator` (sim/robot_simulator.h). -/
def robotMass : ℝ := 2.5

def robotInertia : ℝ := 0.12

def armInertia : ℝ := 0.05

def maxDriveAccel : ℝ := 800

def maxTurnAccel : ℝ := 600

def maxArmAccel : ℝ := 1000

def frictionCoeff : ℝ := 0.05

def motorLag : ℝ := 0.03

/-- The fixed timestep `dt = 0.02 s`. -/
def dt : ℝ := 0.02

/-- Embeds `std::clamp(v, lo, hi)`. -/
def clampR (v lo hi : ℝ) : ℝ := max lo (min v hi)

/-- Embeds `RobotSimulator` state; `width`/`height` are the widget dimensions
(minimum size 300 × 200). -/
structure SimState where
  robotX : ℝ
  robotY : ℝ
  robotAngle : ℝ
  arm1Angle : ℝ
  arm2Angle : ℝ
  targetSpd : ℝ
  targetTurn : ℝ
  targetArm1Spd : ℝ
  targetArm2Spd : ℝ
  actualSpd : ℝ
  actualTurn : ℝ
  actualArm1Spd : ℝ
  actualArm2Spd : ℝ
  speedAccel : ℝ
  turnAccel : ℝ
  arm1Accel : ℝ
  arm2Accel : ℝ
  width : ℝ
  height : ℝ

/-- The jerk-limited intermediate value `newAccel` of
`RobotSimulator::sCurveProfile`: the proportional target acceleration
`clamp(error × 15, ±maxAccel)`, approached from `currentAccel` by at most
`jerkLimit × dt` with `jerkLimit = maxAccel × 8`. -/
noncomputable def jerkLimitedAccel (error currentAccel maxAccel : ℝ) : ℝ :=
  let targetAccel := clampR (error * 15.0) (-maxAccel) maxAccel
  let accelError := targetAccel - currentAccel
  let maxJerkChange := maxAccel * 8.0 * dt
  if |accelError| > maxJerkChange then
    (if accelError > 0 then currentAccel + maxJerkChange
     else currentAccel - maxJerkChange)
  else targetAccel

/-- Embeds `RobotSimulator::sCurveProfile`: the jerk-limited acceleration scaled by
the friction factor `1 − frictionCoeff×dt` and the error-dependent damping
`0.92 + 0.08×exp(−|error|×0.1)`.  The `maxChange` parameter is unused, as in
the source. -/
noncomputable def sCurveProfile (error maxChange currentAccel maxAccel : ℝ) : ℝ :=
  jerkLimitedAccel error currentAccel maxAccel *
    (1.0 - frictionCoeff * dt) *
    (0.92 + 0.08 * Real.exp (-|error| * 0.1))

/-- Embeds `RobotSimulator::applyRealisticMotorPhysics`: update each channel's
acceleration by the S-curve profile, integrate the actual values with the
motor-lag factor, and apply the global inertial bleed-off `×0.995`. -/
noncomputable def applyRealisticMotorPhysics (s : SimState) : SimState :=
  let speedError := s.targetSpd - s.actualSpd
  let turnError := s.targetTurn - s.actualTurn
  let arm1Error := s.targetArm1Spd - s.actualArm1Spd
  let arm2Error := s.targetArm2Spd - s.actualArm2Spd
  let speedAccel' := sCurveProfile speedError (maxDriveAccel * dt) s.speedAccel maxDriveAccel
  let turnAccel' := sCurveProfile turnError (maxTurnAccel * dt) s.turnAccel maxTurnAccel
  let arm1Accel' := sCurveProfile arm1Error (maxArmAccel * dt) s.arm1Accel maxArmAccel
  let arm2Accel' := sCurveProfile arm2Error (maxArmAccel * dt) s.arm2Accel maxArmAccel
  let motorLagFactor := 1.0 - motorLag
  { s with
    speedAccel := speedAccel'
    turnAccel := turnAccel'
    arm1Accel := arm1Accel'
    arm2Accel := arm2Accel'
    actualSpd := (s.actualSpd + speedAccel' * dt * motorLagFactor) * 0.995
    actualTurn := (s.actualTurn + turnAccel' * dt * motorLagFactor) * 0.995
    actualArm1Spd := (s.actualArm1Spd + arm1Accel' * dt * motorLagFactor) * 0.995
    actualArm2Spd := (s.actualArm2Spd + arm2Accel' * dt * motorLagFactor) * 0.995 }

/-- C `fmod` (truncated remainder). -/
noncomputable def fmodR (a b : ℝ) : ℝ :=
  a - b * (if a / b < 0 then (⌈a / b⌉ : ℝ) else (⌊a / b⌋ : ℝ))

/-- Embeds `RobotSimulator::updateRobotPosition`: only when there is meaningful
motion (`|actualSpd| > 0.01` or `|actualTurn| > 0.01`) integrate heading and
position and clamp the position to the workspace margin of 30 px. -/
noncomputable def updateRobotPosition (s : SimState) : SimState :=
  if |s.actualSpd| > 0.01 ∨ |s.actualTurn| > 0.01 then
    let simSpeed := s.actualSpd * 0.15
    let simTurn := s.actualTurn * 0.8
    let momentumFactor := 1.0 / (1.0 + robotMass * 0.1)
    let inertiaFactor := 1.0 / (1.0 + robotInertia * 2.0)
    let angle' := fmodR (s.robotAngle + simTurn * dt * inertiaFactor) 360.0
    let angleRad := angle' * Real.pi / 180.0
    let dx := simSpeed * Real.cos angleRad * dt * momentumFactor
    let dy := simSpeed * Real.sin angleRad * dt * momentumFactor
    { s with
      robotAngle := angle'
      robotX := clampR (s.robotX + dx) 30.0 (s.width - 30.0)
      robotY := clampR (s.robotY + dy) 30.0 (s.height - 30.0) }
  else s

/-- Embeds `RobotSimulator::updateArmPositions`: each arm integrates only when its
actual speed exceeds 0.1, and is clamped to ±90°. -/
noncomputable def updateArmPositions (s : SimState) : SimState :=
  let armMomentum := 1.0 / (1.0 + armInertia * 0.8)
  let s1 :=
    if |s.actualArm1Spd| > 0.1 then
      { s with arm1Angle := clampR (s.arm1Angle + s.actualArm1Spd * 0.3 * dt * armMomentum) (-90.0) 90.0 }
    else s
  if |s1.actualArm2Spd| > 0.1 then
    { s1 with arm2Angle := clampR (s1.arm2Angle + s1.actualArm2Spd * 0.3 * dt * armMomentum) (-90.0) 90.0 }
  else s1

/-- Embeds `RobotSimulator::updateSimulation`: one 20 ms tick (the trailing
`update()` only repaints). -/
noncomputable def updateSimulation (s : SimState) : SimState :=
  updateArmPositions (updateRobotPosition (applyRealisticMotorPhysics s))

/-- Embeds `RobotSimulator::updateCommand`: command intake; drive speed and turn
rate receive their gains (×1.5 and ×1.2) here, at the boundary. -/
noncomputable def simUpdateCommand (s : SimState) (command : VarHash) : SimState :=
  let cmdType := toStringAt command "type"
  if cmdType == "drive" then
    { s with
      targetSpd := ((toDoubleAt command "speed" : ℚ) : ℝ) * 1.5
      targetTurn := ((toDoubleAt command "turn_rate" : ℚ) : ℝ) * 1.2 }
  else if cmdType == "arm1" then
    { s with targetArm1Spd := ((toDoubleAt command "speed" : ℚ) : ℝ) * 1.0 }
  else if cmdType == "arm2" then
    { s with targetArm2Spd := ((toDoubleAt command "speed" : ℚ) : ℝ) * 1.0 }
  else s

/-- Embeds `RobotSimulator::resetSimulation`. -/
noncomputable def resetSimulation (s : SimState) : SimState :=
  { s with
    robotX := max 30.0 (min (s.width - 30.0) (s.width / 2.0))
    robotY := max 30.0 (min (s.height - 30.0) (s.height / 2.0))
    robotAngle := 0
    arm1Angle := 0
    arm2Angle := 0
    targetSpd := 0
    targetTurn := 0
    targetArm1Spd := 0
    targetArm2Spd := 0
    actualSpd := 0
    actualTurn := 0
    actualArm1Spd := 0
    actualArm2Spd := 0
    speedAccel := 0
    turnAccel := 0
    arm1Accel := 0
    arm2Accel := 0 }

/-- Embeds `RobotSimulator::resizeEvent`: adopt the new widget size and re-clamp
the position. -/
noncomputable def simResize (s : SimState) (w h : ℝ) : SimState :=
  { s with
    width := w
    height := h
    robotX := clampR s.robotX 30.0 (w - 30.0)
    robotY := clampR s.robotY 30.0 (h - 30.0) }

/-- The constructor state of `RobotSimulator` for a widget of size
`w × h`. -/
def initSimState (w h : ℝ) : SimState :=
  { robotX := 200, robotY := 150, robotAngle := 0
    arm1Angle := 0, arm2Angle := 0
    targetSpd := 0, targetTurn := 0, targetArm1Spd := 0, targetArm2Spd := 0
    actualSpd := 0, actualTurn := 0, actualArm1Spd := 0, actualArm2Spd := 0
    speedAccel := 0, turnAccel := 0, arm1Accel := 0, arm2Accel := 0
    width := w, height := h }

/-- The simulator states reachable from construction through command intake,
simulation ticks, resets, and resizes; the widget never shrinks below its
minimum size `300 × 200`. -/
inductive SimReachable : SimState → Prop where
  | init (w h : ℝ) (hw : 300 ≤ w) (hh : 200 ≤ h) :
      SimReachable (initSimState w h)
  | cmd {s : SimState} (c : VarHash) :
      SimReachable s → SimReachable (simUpdateCommand s c)
  | tick {s : SimState} :
      SimReachable s → SimReachable (updateSimulation s)
  | reset {s : SimState} :
      SimReachable s → SimReachable (resetSimulation s)
  | resize {s : SimState} (w h : ℝ) (hw : 300 ≤ w) (hh : 200 ≤ h) :
      SimReachable s → SimReachable (simResize s w h)

/-! ## Auxiliary string predicates used to state claims about messages -/

/-- Predicate `listStarts needle hay`: `needle` is an initial run of `hay`. -/
def listStarts : List Char → List Char → Bool
  | [], _ => true
  | _ :: _, [] => false
  | c :: cs, d :: ds => c == d && listStarts cs ds

/-- Predicate `strStarts needle hay`: the string `hay` begins with `needle`. -/
def strStarts (needle hay : String) : Bool := listStarts needle.data hay.data

/-- Predicate `listContainsSub needle hay`: `needle` occurs contiguously in `hay`. -/
def listContainsSub (needle : List Char) : List Char → Bool
  | [] => needle.isEmpty
  | d :: rest => listStarts needle (d :: rest) || listContainsSub needle rest

/-- Predicate `strContains hay needle`: the string `hay` mentions `needle`. -/
def strContains (hay needle : String) : Bool :=
  listContainsSub needle.data hay.data

/-! ## Recording-session reachability -/

/-- Recording-session states reachable from startup through recording
toggles, recorded commands, undos and redos. -/
inductive RecReachable : RecState → Prop where
  | init : RecReachable ⟨false, [], [], []⟩
  | toggle {s : RecState} : RecReachable s → RecReachable (toggleRecording s)
  | record {s : RecState} (ts : ℚ) (cmd : VarHash) :
      RecReachable s → RecReachable (recordCommand s ts cmd)
  | undo {s : RecState} : RecReachable s → RecReachable (undoLastAction s)
  | redo {s : RecState} : RecReachable s → RecReachable (redoLastAction s)

lemma undoHistory_redoHistory_sum_le {s : RecState} (h : RecReachable s) :
    s.undoHistory.length + s.redoHistory.length ≤ 20 := by
  induction h with
  | init => simp
  | toggle h ih =>
      unfold toggleRecording
      split <;> simpa using ih
  | record ts cmd h ih =>
      unfold recordCommand saveRecordingState
      split
      · dsimp only
        split <;> rename_i hlen <;>
          simp only [List.length_cons, List.length_dropLast, List.length_nil]
            at hlen ih ⊢ <;> omega
      · exact ih
  | undo h ih =>
      unfold undoLastAction
      split
      · rename_i prev rest heq _
        simp only [List.length_cons]
        rw [heq] at ih
        simp only [List.length_cons] at ih
        omega
      · exact ih
  | redo h ih =>
      unfold redoLastAction
      split
      · rename_i nxt rest heq _
        simp only [List.length_cons]
        rw [heq] at ih
        simp only [List.length_cons] at ih
        omega
      · exact ih

/-- C9: after any reachable sequence of record, undo, and redo operations the
undo stack and the redo stack each hold at most 20 snapshots, and appending a
newly recorded command while recording clears the redo stack. -/
theorem undo_redo_bounded_and_record_clears_redo (s : RecState)
    (h : RecReachable s) :
    (s.undoHistory.length ≤ 20 ∧ s.redoHistory.length ≤ 20) ∧
      ∀ (ts : ℚ) (cmd : VarHash), s.isRecording = true →
        (recordCommand s ts cmd).redoHistory = [] := by
  refine ⟨?_, ?_⟩
  · have hsum := undoHistory_redoHistory_sum_le h
    omega
  · intro ts cmd hrec
    unfold recordCommand saveRecordingState
    rw [hrec]
    simp

/-- Witness for C9 at a concrete reachable state (recording just started). -/
theorem undo_redo_bounded_witness :
    (((⟨true, [], [], []⟩ : RecState).undoHistory.length ≤ 20 ∧
        ((⟨true, [], [], []⟩ : RecState)).redoHistory.length ≤ 20) ∧
      ∀ (ts : ℚ) (cmd : VarHash),
        (⟨true, [], [], []⟩ : RecState).isRecording = true →
          (recordCommand ⟨true, [], [], []⟩ ts cmd).redoHistory = []) := by
  have hreach : RecReachable ⟨true, [], [], []⟩ := by
    have h0 := RecReachable.init
    have h1 := RecReachable.toggle h0
    simpa [toggleRecording] using h1
  exact undo_redo_bounded_and_record_clears_redo _ hreach

/-! ## C7: RecordedCommand serialization round-trip -/

lemma varHashEq_deserialize_serialize (h : VarHash) :
    varHashEq (deserializeParams (serializeParams h)) h = true := by
  induction h with
  | nil => rfl
  | cons p rest ih =>
      obtain ⟨k, v⟩ := p
      cases v <;>
        simp [serializeParams, deserializeParams, varHashEq, QVar.qeq, ih]

/-- C7: reloading a serialized `RecordedCommand` reproduces the timestamp
and command type exactly, and a parameter map equal under the code's own
`RecordedCommand::operator==` (`int` parameter values reload as numerically
equal JSON-number `double` variants, which Qt variant equality identifies). -/
theorem recordedCommand_roundtrip (c : RecordedCommand) :
    (RecordedCommand.fromJson c.toJson).timestamp = c.timestamp ∧
    (RecordedCommand.fromJson c.toJson).commandType = c.commandType ∧
    RecordedCommand.eq (RecordedCommand.fromJson c.toJson) c = true := by
  refine ⟨rfl, rfl, ?_⟩
  unfold RecordedCommand.eq RecordedCommand.fromJson RecordedCommand.toJson
  simp [varHashEq_deserialize_serialize]

/-! ## C5: calibration entry guard -/

/-- C5 counterexample: with no BLE controller and developer mode off,
`startCalibration` does fail immediately with no state change, but the
emitted failure reason begins with "Cannot perform calibration", not with
"Cannot start calibration" as the claim states. -/
theorem startCalibration_guard_message_counterexample :
    canCalibrate ({} : CalState) = false ∧
    startCalibration ({} : CalState) = ({}, [.failed cannotCalibrateMsg]) ∧
    strStarts "Cannot start calibration" cannotCalibrateMsg = false := by
  refine ⟨rfl, ?_, by decide⟩
  rfl

/-- C5 (amended): starting a calibration run with `canCalibrate() == false`
while no run is in progress emits exactly one failure whose reason begins
with "Cannot perform calibration", and leaves the whole state (in
particular `currentStep`) unchanged. -/
theorem startCalibration_guard (s : CalState)
    (hrun : s.calibrationRunning = false)
    (hcan : canCalibrate s = false) :
    startCalibration s = (s, [.failed cannotCalibrateMsg]) ∧
    strStarts "Cannot perform calibration" cannotCalibrateMsg = true ∧
    (startCalibration s).1.currentStep = s.currentStep := by
  have hstart : startCalibration s = (s, [.failed cannotCalibrateMsg]) := by
    unfold startCalibration
    rw [hrun, hcan]
    rfl
  exact ⟨hstart, by decide, by rw [hstart]⟩

/-- Witness for C5 (amended) at the default (disconnected, non-developer,
not-started) state. -/
theorem startCalibration_guard_witness :
    startCalibration ({} : CalState) = ({}, [.failed cannotCalibrateMsg]) ∧
    strStarts "Cannot perform calibration" cannotCalibrateMsg = true ∧
    (startCalibration ({} : CalState)).1.currentStep = .stepNotStarted := by
  have h := startCalibration_guard ({} : CalState) rfl rfl
  exact ⟨h.1, h.2.1, h.2.2⟩

/-! ## C4: per-step retry and abort -/

/-- A calibration state whose current step has already failed twice. -/
def retryWornState : CalState :=
  { isDeveloperMode := true
    calibrationRunning := true
    currentStep := .stepMotorResponseTime
    currentRetry := 2
    timeoutTimer := some 2000 }

/-- C4 counterexample: the third failure of a step aborts the run, and the
emitted reason is `"Step failed after 3 attempts: <description>"` — it
carries the attempt count and the failure description, but it does not name
the failing step (here "Motor Response Time"). -/
theorem completeStep_abort_message_counterexample :
    (completeCurrentStep retryWornState false 0 "Step timed out").2 =
      [.stepCompleted (stepResult .stepMotorResponseTime false 0 "Step timed out"),
        .failed "Step failed after 3 attempts: Step timed out"] ∧
    (completeCurrentStep retryWornState false 0 "Step timed out").1.calibrationRunning
      = false ∧
    stepDisplayName retryWornState.currentStep = "Motor Response Time" ∧
    strContains "Step failed after 3 attempts: Step timed out"
      "Motor Response Time" = false ∧
    strContains "Step failed after 3 attempts: Step timed out"
      "after 3 attempts" = true := by
  refine ⟨?_, rfl, rfl, by decide, by decide⟩
  rfl

/-- C4 (amended): completing a step with failure increments the retry
counter; while the counter stays below the cap of 3 the same step is
rescheduled after 1000 ms; at the third consecutive failure the run aborts
with the reason `"Step failed after 3 attempts: <description>"`, which names
the attempt count and the step's failure description (not the step's display
name). -/
theorem completeStep_failure_retry (s : CalState) (mv : ℚ) (desc : String) :
    (completeCurrentStep s false mv desc).1.currentRetry = s.currentRetry + 1 ∧
    (s.currentRetry + 1 < maxRetries →
      (completeCurrentStep s false mv desc).1.stepTimer = some 1000 ∧
      (completeCurrentStep s false mv desc).1.currentStep = s.currentStep ∧
      (completeCurrentStep s false mv desc).1.calibrationRunning =
        s.calibrationRunning ∧
      (completeCurrentStep s false mv desc).2 =
        [.stepCompleted (stepResult s.currentStep false mv desc)]) ∧
    (¬ s.currentRetry + 1 < maxRetries →
      (completeCurrentStep s false mv desc).1.calibrationRunning = false ∧
      (completeCurrentStep s false mv desc).2 =
        [.stepCompleted (stepResult s.currentStep false mv desc),
          .failed (stepFailedMsg desc)]) := by
  unfold completeCurrentStep
  by_cases hr : s.currentRetry + 1 < maxRetries
  · simp [hr]
  · simp [hr]

/-- Witness for C4 (amended): a first failure (retry counter 0) schedules a
1000 ms retry of the same step; the same theorem applied at the worn state
yields the abort. -/
theorem completeStep_failure_retry_witness :
    (completeCurrentStep ({ retryWornState with currentRetry := 0 }) false 0
        "Step timed out").1.currentRetry = 1 ∧
    (completeCurrentStep ({ retryWornState with currentRetry := 0 }) false 0
        "Step timed out").1.stepTimer = some 1000 ∧
    (completeCurrentStep ({ retryWornState with currentRetry := 0 }) false 0
        "Step timed out").1.currentStep = .stepMotorResponseTime := by
  have h := completeStep_failure_retry
    ({ retryWornState with currentRetry := 0 }) 0 "Step timed out"
  have hlt : (0 : Nat) + 1 < maxRetries := by decide
  exact ⟨h.1, (h.2.1 hlt).1, (h.2.1 hlt).2.1⟩

/-! ## C3: finalization and the quality gate -/

/-- A finalization-stage state carrying one successful result of
confidence 0.5 (quality score 50). -/
def lowQualityState : CalState :=
  { isDeveloperMode := true
    calibrationRunning := true
    currentStep := .stepFinalization
    calibrationResults :=
      [{ success := true, stepName := "Motor Response Time",
         measuredValue := 25, units := "ms", description := "d",
         confidence := 1/2 }] }

/-- C3 counterexample: with quality score 50 < 75 Finalization does reject
the run with a failure event, but `isCalibrated`, `calibrationDate` and
`calibrationQuality` have already been assigned before the check, so the
configuration *is* marked calibrated on the rejected run. -/
theorem finalize_rejected_still_marked_counterexample :
    qualityScore lowQualityState.calibrationResults = 50 ∧
    (finalizeCalibration "2024-01-01 00:00:00" lowQualityState).2 =
      [.failed (qualityTooLowMsg 50)] ∧
    (finalizeCalibration "2024-01-01 00:00:00" lowQualityState).1.calibratedConfig.isCalibrated
      = true ∧
    (finalizeCalibration "2024-01-01 00:00:00" lowQualityState).1.calibratedConfig.calibrationQuality
      = 50 ∧
    (finalizeCalibration "2024-01-01 00:00:00" lowQualityState).1.calibratedConfig.calibrationDate
      = "2024-01-01 00:00:00" := by
  have hq : qualityScore lowQualityState.calibrationResults = 50 := by
    norm_num [qualityScore, lowQualityState, List.filter]
  have h50 : (50 : ℚ) < QUALITY_THRESHOLD := by norm_num [QUALITY_THRESHOLD]
  refine ⟨hq, ?_, ?_, ?_, ?_⟩ <;> simp [finalizeCalibration, hq, h50]

/-- C3 (amended): Finalization assigns `isCalibrated = true`, stamps the
date and stores `calibrationQuality = qualityScore` unconditionally, before
the acceptance check; a score below 75 then rejects the run with a single
failure event (leaving the step unchanged and the config unemitted), while a
score of at least 75 appends the summary result and advances to
`StepCompleted`. -/
theorem finalize_behaviour (d : String) (s : CalState) :
    (finalizeCalibration d s).1.calibratedConfig.isCalibrated = true ∧
    (finalizeCalibration d s).1.calibratedConfig.calibrationDate = d ∧
    (finalizeCalibration d s).1.calibratedConfig.calibrationQuality =
      qualityScore s.calibrationResults ∧
    (qualityScore s.calibrationResults < QUALITY_THRESHOLD →
      (finalizeCalibration d s).2 =
        [.failed (qualityTooLowMsg (qualityScore s.calibrationResults))] ∧
      (finalizeCalibration d s).1.currentStep = s.currentStep ∧
      (finalizeCalibration d s).1.calibrationResults = s.calibrationResults) ∧
    (QUALITY_THRESHOLD ≤ qualityScore s.calibrationResults →
      (finalizeCalibration d s).1.currentStep = .stepCompleted ∧
      (finalizeCalibration d s).2 =
        [.stepCompleted (finalQualityResult (qualityScore s.calibrationResults))]) := by
  unfold finalizeCalibration
  by_cases hq : qualityScore s.calibrationResults < QUALITY_THRESHOLD
  · simp [hq]
  · simp [hq, le_of_not_lt hq]

/-- A finalization-stage state as produced by a full simulated run: five
successful steps of confidence 0.9 each (quality score 90). -/
def fullRunState : CalState :=
  { isDeveloperMode := true
    calibrationRunning := true
    currentStep := .stepFinalization
    calibrationResults :=
      [stepResult .stepMotorResponseTime true 25 "Motor response time (SIMULATED)",
        stepResult .stepStraightTracking true (1/2) "Straight drift correction (SIMULATED)",
        stepResult .stepTurnAccuracy true (19/20) "Turn accuracy factor (SIMULATED)",
        stepResult .stepGyroscopeCalibration true (1/500) "Gyroscope drift rate (SIMULATED)",
        stepResult .stepMotorBalance true (49/50) "Motor balance factor (SIMULATED)"] }

/-- Witness for C3 (amended): a full simulated run's quality score is 90,
which is accepted — the config is marked calibrated and the machine advances
to `StepCompleted`. -/
theorem finalize_behaviour_witness :
    qualityScore fullRunState.calibrationResults = 90 ∧
    (finalizeCalibration "2024-01-02 00:00:00" fullRunState).1.calibratedConfig.isCalibrated
      = true ∧
    (finalizeCalibration "2024-01-02 00:00:00" fullRunState).1.calibratedConfig.calibrationQuality
      = 90 ∧
    (finalizeCalibration "2024-01-02 00:00:00" fullRunState).1.currentStep
      = .stepCompleted := by
  have hq : qualityScore fullRunState.calibrationResults = 90 := by
    norm_num [qualityScore, fullRunState, stepResult, List.filter]
  have h := finalize_behaviour "2024-01-02 00:00:00" fullRunState
  have hge : QUALITY_THRESHOLD ≤ qualityScore fullRunState.calibrationResults := by
    rw [hq]; norm_num [QUALITY_THRESHOLD]
  exact ⟨hq, h.1, by rw [h.2.2.1, hq], (h.2.2.2.2 hge).1⟩

/-! ## C1: calibration compensation at dispatch -/

lemma toDoubleAt_hashSet_self (h : VarHash) (k : String) (v : QVar) :
    toDoubleAt (hashSet h k v) k = v.toDouble := by
  induction h with
  | nil => simp [hashSet, toDoubleAt, hashGet]
  | cons p rest ih =>
      obtain ⟨k₀, v₀⟩ := p
      by_cases hk : k₀ = k
      · simp [hashSet, hk, toDoubleAt, hashGet]
      · simp only [hashSet, beq_iff_eq, hk, if_false]
        simpa [toDoubleAt, hashGet, hk] using ih

lemma toDoubleAt_hashSet_ne (h : VarHash) {k k' : String} (v : QVar)
    (hne : k ≠ k') : toDoubleAt (hashSet h k v) k' = toDoubleAt h k' := by
  induction h with
  | nil => simp [hashSet, toDoubleAt, hashGet, hne]
  | cons p rest ih =>
      obtain ⟨k₀, v₀⟩ := p
      by_cases hk : k₀ = k
      · have hk' : ¬ k₀ = k' := hk ▸ hne
        simp [hashSet, hk, toDoubleAt, hashGet, hne, hk']
      · by_cases hk2 : k₀ = k'
        · simp [hashSet, hk, toDoubleAt, hashGet, hk2, hne.symm]
        · simp only [hashSet, beq_iff_eq, hk, if_false]
          simpa [toDoubleAt, hashGet, hk2] using ih

/-- The drive command of the claim's example: `speed = 100`,
`turn_rate = 0`. -/
def exampleDriveCmd : VarHash :=
  [("type", .vStr "drive"), ("speed", .vDouble 100), ("turn_rate", .vDouble 0)]

/-- A config with `isCalibrated = true` but no calibration date and zero
quality, as left by `clearCalibration` except for the flag. -/
def flagOnlyConfig : RobotConfig :=
  { isCalibrated := true
    leftMotorSpeedFactor := 1
    rightMotorSpeedFactor := 49/50
    straightDriftCorrection := 3/10 }

/-- C1 counterexample: `executeCommand` gates compensation on
`hasValidCalibration()`, not on `isCalibrated` alone.  With
`isCalibrated = true` but an empty `calibrationDate` (and zero quality) the
example drive command passes through uncompensated: the dispatched speed
stays 100 (not 99) and the turn rate stays 0 (not 0.3). -/
theorem compensation_needs_valid_calibration_counterexample :
    flagOnlyConfig.isCalibrated = true ∧
    flagOnlyConfig.hasValidCalibration = false ∧
    toDoubleAt (compensate flagOnlyConfig exampleDriveCmd) "speed" = 100 ∧
    toDoubleAt (compensate flagOnlyConfig exampleDriveCmd) "speed" ≠ 99 ∧
    toDoubleAt (compensate flagOnlyConfig exampleDriveCmd) "turn_rate" = 0 := by
  refine ⟨rfl, rfl, ?_, ?_, ?_⟩ <;> decide

/-- C1 (amended): when the config has a *valid* calibration
(`isCalibrated` with a non-empty date and positive quality), dispatching a
drive command rescales the sent speed by the mean of the two motor speed
factors, multiplies a non-zero turn rate by `turnAccuracyFactor`, overrides
a zero turn rate with `straightDriftCorrection` when the speed is non-zero,
and appends the original, uncompensated command to an active recording. -/
theorem dispatch_compensation (cfg : RobotConfig) (cmd : VarHash)
    (hcal : cfg.hasValidCalibration = true)
    (htype : toStringAt cmd "type" = "drive") :
    toDoubleAt (compensate cfg cmd) "speed" =
      (cfg.leftMotorSpeedFactor + cfg.rightMotorSpeedFactor) / 2 *
        toDoubleAt cmd "speed" ∧
    toDoubleAt (compensate cfg cmd) "turn_rate" =
      (if toDoubleAt cmd "turn_rate" ≠ 0 then
        toDoubleAt cmd "turn_rate" * cfg.turnAccuracyFactor
      else if toDoubleAt cmd "speed" ≠ 0 then cfg.straightDriftCorrection
      else toDoubleAt cmd "turn_rate") ∧
    ∀ (rs : RecState) (ts : ℚ), rs.isRecording = true →
      (executeCommand cfg rs ts cmd).2.currentRecording =
        rs.currentRecording ++ [⟨ts, "drive", cmd⟩] := by
  have hst : ("turn_rate" : String) ≠ "speed" := by decide
  have hts : ("speed" : String) ≠ "turn_rate" := by decide
  have hA : ∀ (h : VarHash) (v : QVar),
      toDoubleAt (hashSet h "turn_rate" v) "speed" = toDoubleAt h "speed" :=
    fun h v => toDoubleAt_hashSet_ne h v hst
  have hB : ∀ (h : VarHash) (v : QVar),
      toDoubleAt (hashSet h "turn_rate" v) "turn_rate" = v.toDouble :=
    fun h v => toDoubleAt_hashSet_self h _ v
  have hC : ∀ (h : VarHash) (v : QVar),
      toDoubleAt (hashSet h "speed" v) "speed" = v.toDouble :=
    fun h v => toDoubleAt_hashSet_self h _ v
  have hD : ∀ (h : VarHash) (v : QVar),
      toDoubleAt (hashSet h "speed" v) "turn_rate" = toDoubleAt h "turn_rate" :=
    fun h v => toDoubleAt_hashSet_ne h v hts
  have hmain :
      toDoubleAt (compensate cfg cmd) "speed" =
        (cfg.leftMotorSpeedFactor + cfg.rightMotorSpeedFactor) / 2 *
          toDoubleAt cmd "speed" ∧
      toDoubleAt (compensate cfg cmd) "turn_rate" =
        (if toDoubleAt cmd "turn_rate" ≠ 0 then
          toDoubleAt cmd "turn_rate" * cfg.turnAccuracyFactor
        else if toDoubleAt cmd "speed" ≠ 0 then cfg.straightDriftCorrection
        else toDoubleAt cmd "turn_rate") := by
    unfold compensate
    rw [hcal, htype]
    simp only [beq_self_eq_true, if_true]
    split_ifs with h1 h2 h3 h4 h5 h6 h7 h8 h9 h10 h11 h12 <;>
      constructor <;>
      (try simp only [hA, hB, hC, hD, QVar.toDouble]) <;>
      first
        | ring1
        | tauto
        | linarith
        | (have hz : toDoubleAt cmd "speed" = 0 := by linarith
           rw [hz]; ring1)
  refine ⟨hmain.1, hmain.2, ?_⟩
  intro rs ts hrec
  unfold executeCommand recordCommand saveRecordingState
  rw [hrec, htype]
  simp

/-- The valid calibrated config of the claim's example: factors 1.0 and
0.98, drift correction 0.3, with a date stamp and positive quality. -/
def exampleValidConfig : RobotConfig :=
  { isCalibrated := true
    calibrationDate := "2024-01-01 00:00:00"
    leftMotorSpeedFactor := 1
    rightMotorSpeedFactor := 49/50
    straightDriftCorrection := 3/10
    calibrationQuality := 90 }

/-- Witness for C1 (amended): the claim's example under a valid calibration
— the dispatched command carries speed 99 and turn rate 0.3 while the
recorded entry stores the original speed 100, turn rate 0. -/
theorem dispatch_compensation_witness :
    exampleValidConfig.hasValidCalibration = true ∧
    toDoubleAt (compensate exampleValidConfig exampleDriveCmd) "speed" = 99 ∧
    toDoubleAt (compensate exampleValidConfig exampleDriveCmd) "turn_rate" = 3/10 ∧
    (executeCommand exampleValidConfig ⟨true, [], [], []⟩ 0 exampleDriveCmd).2.currentRecording
      = [⟨0, "drive", exampleDriveCmd⟩] := by
  have h := dispatch_compensation exampleValidConfig exampleDriveCmd rfl rfl
  have hspd : toDoubleAt exampleDriveCmd "speed" = 100 := by decide
  have hturn : toDoubleAt exampleDriveCmd "turn_rate" = 0 := by decide
  refine ⟨rfl, ?_, ?_, ?_⟩
  · rw [h.1, hspd]; norm_num [exampleValidConfig]
  · rw [h.2.1, hspd, hturn]; norm_num [exampleValidConfig]
  · simpa using h.2.2 ⟨true, [], [], []⟩ 0 rfl

/-! ## C6: playback dispatch ordering -/

lemma playLoop_sorted (t : ℚ) (l : List RecordedCommand)
    (h : l.Pairwise (fun a b => a.timestamp ≤ b.timestamp)) :
    playLoop t l =
      (l.filter (fun c => decide (c.timestamp ≤ t)),
        (l.filter (fun c => decide (c.timestamp ≤ t))).length) := by
  induction l with
  | nil => rfl
  | cons c rest ih =>
      rcases List.pairwise_cons.mp h with ⟨hall, hrest⟩
      by_cases hc : c.timestamp ≤ t
      · simp [playLoop, hc, ih hrest]
      · have hnone : rest.filter (fun c => decide (c.timestamp ≤ t)) = [] := by
          rw [List.filter_eq_nil_iff]
          intro x hx
          simpa using fun hxt => hc (le_trans (hall x hx) hxt)
        simp [playLoop, hc, hnone]

/-- C6: within one poll tick, with the log's timestamps non-decreasing,
every remaining command whose timestamp has come due is dispatched, in log
order, before the tick returns; the cursor advances past each of them; and
the tick reports completion (and stops playing) exactly when the cursor
reaches the end of the log. -/
theorem playbackTick_dispatches_due (s : PlaybackState) (t : ℚ)
    (hp : s.isPlayingBack = true)
    (hidx : s.playbackIndex < s.playbackCommands.length)
    (hsort : s.playbackCommands.Pairwise (fun a b => a.timestamp ≤ b.timestamp)) :
    (playbackTick s t).2.1 =
      ((s.playbackCommands.drop s.playbackIndex).filter
          (fun c => decide (c.timestamp ≤ t))).map (·.parameters) ∧
    (playbackTick s t).1.playbackIndex =
      s.playbackIndex +
        ((s.playbackCommands.drop s.playbackIndex).filter
            (fun c => decide (c.timestamp ≤ t))).length ∧
    ((playbackTick s t).1.isPlayingBack = false ↔
      s.playbackCommands.length ≤
        s.playbackIndex +
          ((s.playbackCommands.drop s.playbackIndex).filter
              (fun c => decide (c.timestamp ≤ t))).length) ∧
    ((playbackTick s t).2.2 = ["Playback completed"] ↔
      s.playbackCommands.length ≤
        s.playbackIndex +
          ((s.playbackCommands.drop s.playbackIndex).filter
              (fun c => decide (c.timestamp ≤ t))).length) := by
  have hs' : (s.playbackCommands.drop s.playbackIndex).Pairwise
      (fun a b => a.timestamp ≤ b.timestamp) :=
    hsort.sublist (List.drop_sublist _ _)
  have hemp : s.playbackCommands.isEmpty = false := by
    cases hcmd : s.playbackCommands with
    | nil => rw [hcmd] at hidx; simp at hidx
    | cons a l => rfl
  have h2 : ¬ s.playbackIndex ≥ s.playbackCommands.length := not_le.mpr hidx
  have hloop := playLoop_sorted t _ hs'
  by_cases hdone :
      s.playbackIndex +
          ((s.playbackCommands.drop s.playbackIndex).filter
              (fun c => decide (c.timestamp ≤ t))).length ≥
        s.playbackCommands.length
  · simp [playbackTick, hp, hemp, h2, hloop, hdone]
  · simp [playbackTick, hp, hemp, h2, hloop, hdone]

/-- Distinct parameter maps for the playback example log. -/
def exParams0 : VarHash := [("type", .vStr "drive"), ("speed", .vInt 200), ("turn_rate", .vInt 0)]

def exParams1 : VarHash := [("type", .vStr "drive"), ("speed", .vInt 200), ("turn_rate", .vInt 100)]

def exParams2 : VarHash := [("type", .vStr "drive"), ("speed", .vInt 100), ("turn_rate", .vInt 0)]

def exParams3 : VarHash := [("type", .vStr "drive"), ("speed", .vInt 0), ("turn_rate", .vInt 0)]

/-- The example log with timestamps `[0.0, 0.5, 0.5, 1.2]`. -/
def exLog : List RecordedCommand :=
  [⟨0, "drive", exParams0⟩, ⟨1/2, "drive", exParams1⟩,
    ⟨1/2, "drive", exParams2⟩, ⟨6/5, "drive", exParams3⟩]

/-- Playback of the example log with the 0.0 s command already dispatched. -/
def exPlayback : PlaybackState :=
  { isPlayingBack := true, playbackCommands := exLog, playbackIndex := 1,
    timerActive := true }

/-- Witness for C6: once elapsed time crosses 0.5 s (here 0.52 s), both
0.5 s commands of the example log execute within the same tick, the cursor
advances to 3, and playback continues (no completion yet). -/
theorem playbackTick_example_witness :
    (playbackTick exPlayback (13/25)).2.1 = [exParams1, exParams2] ∧
    (playbackTick exPlayback (13/25)).1.playbackIndex = 3 ∧
    (playbackTick exPlayback (13/25)).1.isPlayingBack = true := by
  have hsort : exLog.Pairwise (fun a b => a.timestamp ≤ b.timestamp) := by
    norm_num [exLog, List.pairwise_cons]
  have h := playbackTick_dispatches_due exPlayback (13/25) rfl
    (by norm_num [exPlayback, exLog]) hsort
  obtain ⟨h1, h2, h3, _⟩ := h
  have hfil : ((exPlayback.playbackCommands.drop exPlayback.playbackIndex).filter
      (fun c => decide (c.timestamp ≤ (13/25 : ℚ)))) =
      [⟨1/2, "drive", exParams1⟩, ⟨1/2, "drive", exParams2⟩] := by
    norm_num [exPlayback, exLog, List.filter]
  refine ⟨?_, ?_, ?_⟩
  · rw [h1, hfil]; rfl
  · rw [h2, hfil]; rfl
  · cases hb : (playbackTick exPlayback (13/25)).1.isPlayingBack
    · exfalso
      have := h3.mp hb
      rw [hfil] at this
      norm_num [exPlayback, exLog] at this
    · rfl

/-! ## Frame lemmas for the simulator tick -/

lemma updateRobotPosition_frame (s : SimState) :
    (updateRobotPosition s).arm1Angle = s.arm1Angle ∧
    (updateRobotPosition s).arm2Angle = s.arm2Angle ∧
    (updateRobotPosition s).targetSpd = s.targetSpd ∧
    (updateRobotPosition s).targetTurn = s.targetTurn ∧
    (updateRobotPosition s).targetArm1Spd = s.targetArm1Spd ∧
    (updateRobotPosition s).targetArm2Spd = s.targetArm2Spd ∧
    (updateRobotPosition s).actualSpd = s.actualSpd ∧
    (updateRobotPosition s).actualTurn = s.actualTurn ∧
    (updateRobotPosition s).actualArm1Spd = s.actualArm1Spd ∧
    (updateRobotPosition s).actualArm2Spd = s.actualArm2Spd ∧
    (updateRobotPosition s).speedAccel = s.speedAccel ∧
    (updateRobotPosition s).turnAccel = s.turnAccel ∧
    (updateRobotPosition s).arm1Accel = s.arm1Accel ∧
    (updateRobotPosition s).arm2Accel = s.arm2Accel ∧
    (updateRobotPosition s).width = s.width ∧
    (updateRobotPosition s).height = s.height := by
  unfold updateRobotPosition
  split <;> simp

lemma updateArmPositions_frame (s : SimState) :
    (updateArmPositions s).robotX = s.robotX ∧
    (updateArmPositions s).robotY = s.robotY ∧
    (updateArmPositions s).robotAngle = s.robotAngle ∧
    (updateArmPositions s).targetSpd = s.targetSpd ∧
    (updateArmPositions s).targetTurn = s.targetTurn ∧
    (updateArmPositions s).targetArm1Spd = s.targetArm1Spd ∧
    (updateArmPositions s).targetArm2Spd = s.targetArm2Spd ∧
    (updateArmPositions s).actualSpd = s.actualSpd ∧
    (updateArmPositions s).actualTurn = s.actualTurn ∧
    (updateArmPositions s).actualArm1Spd = s.actualArm1Spd ∧
    (updateArmPositions s).actualArm2Spd = s.actualArm2Spd ∧
    (updateArmPositions s).speedAccel = s.speedAccel ∧
    (updateArmPositions s).turnAccel = s.turnAccel ∧
    (updateArmPositions s).arm1Accel = s.arm1Accel ∧
    (updateArmPositions s).arm2Accel = s.arm2Accel ∧
    (updateArmPositions s).width = s.width ∧
    (updateArmPositions s).height = s.height := by
  unfold updateArmPositions
  dsimp only
  split <;> split <;> simp

lemma applyPhysics_frame (s : SimState) :
    (applyRealisticMotorPhysics s).robotX = s.robotX ∧
    (applyRealisticMotorPhysics s).robotY = s.robotY ∧
    (applyRealisticMotorPhysics s).robotAngle = s.robotAngle ∧
    (applyRealisticMotorPhysics s).arm1Angle = s.arm1Angle ∧
    (applyRealisticMotorPhysics s).arm2Angle = s.arm2Angle ∧
    (applyRealisticMotorPhysics s).targetSpd = s.targetSpd ∧
    (applyRealisticMotorPhysics s).targetTurn = s.targetTurn ∧
    (applyRealisticMotorPhysics s).targetArm1Spd = s.targetArm1Spd ∧
    (applyRealisticMotorPhysics s).targetArm2Spd = s.targetArm2Spd ∧
    (applyRealisticMotorPhysics s).width = s.width ∧
    (applyRealisticMotorPhysics s).height = s.height := by
  unfold applyRealisticMotorPhysics
  simp

lemma updateArmPositions_arm1_unchanged (s : SimState)
    (h : ¬ |s.actualArm1Spd| > 0.1) :
    (updateArmPositions s).arm1Angle = s.arm1Angle := by
  unfold updateArmPositions
  dsimp only
  rw [if_neg h]
  split <;> rfl

lemma updateArmPositions_arm2_unchanged (s : SimState)
    (h : ¬ |s.actualArm2Spd| > 0.1) :
    (updateArmPositions s).arm2Angle = s.arm2Angle := by
  unfold updateArmPositions
  dsimp only
  have hs1 : ((if |s.actualArm1Spd| > 0.1 then
      { s with arm1Angle := clampR (s.arm1Angle + s.actualArm1Spd * 0.3 * dt *
          (1.0 / (1.0 + armInertia * 0.8))) (-90.0) 90.0 }
    else s) : SimState).actualArm2Spd = s.actualArm2Spd := by
    split <;> rfl
  rw [hs1, if_neg h]
  split <;> rfl

/-! ## C10: no position/arm integration below the motion thresholds -/

/-- C10: on a tick where the freshly updated actual speed and turn rate are
both within the 0.01 deadband, position and heading are left untouched (no
integration, no re-clamping); an arm whose updated actual speed is within
the 0.1 deadband keeps its angle; and the per-channel actual values and
accelerations are still updated on that same tick. -/
theorem smallMotion_frame (s : SimState) :
    ((|(applyRealisticMotorPhysics s).actualSpd| ≤ 0.01 ∧
      |(applyRealisticMotorPhysics s).actualTurn| ≤ 0.01) →
      (updateSimulation s).robotX = s.robotX ∧
      (updateSimulation s).robotY = s.robotY ∧
      (updateSimulation s).robotAngle = s.robotAngle) ∧
    (|(applyRealisticMotorPhysics s).actualArm1Spd| ≤ 0.1 →
      (updateSimulation s).arm1Angle = s.arm1Angle) ∧
    (|(applyRealisticMotorPhysics s).actualArm2Spd| ≤ 0.1 →
      (updateSimulation s).arm2Angle = s.arm2Angle) ∧
    (updateSimulation s).actualSpd = (applyRealisticMotorPhysics s).actualSpd ∧
    (updateSimulation s).actualTurn = (applyRealisticMotorPhysics s).actualTurn ∧
    (updateSimulation s).actualArm1Spd =
      (applyRealisticMotorPhysics s).actualArm1Spd ∧
    (updateSimulation s).actualArm2Spd =
      (applyRealisticMotorPhysics s).actualArm2Spd ∧
    (updateSimulation s).speedAccel = (applyRealisticMotorPhysics s).speedAccel ∧
    (updateSimulation s).turnAccel = (applyRealisticMotorPhysics s).turnAccel ∧
    (updateSimulation s).arm1Accel = (applyRealisticMotorPhysics s).arm1Accel ∧
    (updateSimulation s).arm2Accel = (applyRealisticMotorPhysics s).arm2Accel := by
  set p := applyRealisticMotorPhysics s with hpdef
  obtain ⟨pf1, pf2, pf3, pf4, pf5, pf6, pf7, pf8, pf9, pf10, pf11, pf12,
    pf13, pf14, pf15, pf16⟩ := updateRobotPosition_frame p
  obtain ⟨af1, af2, af3, af4, af5, af6, af7, af8, af9, af10, af11, af12,
    af13, af14, af15, af16, af17⟩ := updateArmPositions_frame (updateRobotPosition p)
  obtain ⟨bf1, bf2, bf3, bf4, bf5, bf6, bf7, bf8, bf9, bf10, bf11⟩ :=
    applyPhysics_frame s
  have htick : updateSimulation s = updateArmPositions (updateRobotPosition p) := rfl
  refine ⟨?_, ?_, ?_, ?_, ?_, ?_, ?_, ?_, ?_, ?_, ?_⟩
  · rintro ⟨h1, h2⟩
    have hcond : ¬ (|p.actualSpd| > 0.01 ∨ |p.actualTurn| > 0.01) := by
      push_neg
      exact ⟨h1, h2⟩
    have hq : updateRobotPosition p = p := by
      unfold updateRobotPosition
      rw [if_neg hcond]
    rw [htick, hq]
    obtain ⟨cf1, cf2, cf3, _⟩ := updateArmPositions_frame p
    exact ⟨cf1.trans bf1, cf2.trans bf2, cf3.trans bf3⟩
  · intro h1
    have hq : (updateRobotPosition p).actualArm1Spd = p.actualArm1Spd := pf9
    rw [htick, updateArmPositions_arm1_unchanged _ (by rw [hq]; exact not_lt.mpr h1)]
    exact pf1.trans bf4
  · intro h2
    have hq : (updateRobotPosition p).actualArm2Spd = p.actualArm2Spd := pf10
    rw [htick, updateArmPositions_arm2_unchanged _ (by rw [hq]; exact not_lt.mpr h2)]
    exact pf2.trans bf5
  · rw [htick]; exact af8.trans pf7
  · rw [htick]; exact af9.trans pf8
  · rw [htick]; exact af10.trans pf9
  · rw [htick]; exact af11.trans pf10
  · rw [htick]; exact af12.trans pf11
  · rw [htick]; exact af13.trans pf12
  · rw [htick]; exact af14.trans pf13
  · rw [htick]; exact af15.trans pf14

lemma sCurveProfile_zero (mc maxA : ℝ) (h : 0 ≤ maxA) :
    sCurveProfile 0 mc 0 maxA = 0 := by
  have htar : clampR (0 * 15.0) (-maxA) maxA = 0 := by
    unfold clampR
    rw [zero_mul, min_eq_left h, max_eq_right (neg_nonpos.mpr h)]
  have hmj : (0 : ℝ) ≤ maxA * 8.0 * dt := by
    have hdt : (0 : ℝ) ≤ dt := by norm_num [dt]
    positivity
  simp only [sCurveProfile, jerkLimitedAccel, htar, sub_zero, abs_zero]
  rw [if_neg (not_lt.mpr hmj)]
  ring

lemma applyPhysics_init_actuals (w h : ℝ) :
    (applyRealisticMotorPhysics (initSimState w h)).actualSpd = 0 ∧
    (applyRealisticMotorPhysics (initSimState w h)).actualTurn = 0 ∧
    (applyRealisticMotorPhysics (initSimState w h)).actualArm1Spd = 0 ∧
    (applyRealisticMotorPhysics (initSimState w h)).actualArm2Spd = 0 := by
  have hz : (0 : ℝ) - 0 = 0 := sub_zero 0
  have h1 := sCurveProfile_zero (maxDriveAccel * dt) maxDriveAccel
    (by norm_num [maxDriveAccel])
  have h2 := sCurveProfile_zero (maxTurnAccel * dt) maxTurnAccel
    (by norm_num [maxTurnAccel])
  have h3 := sCurveProfile_zero (maxArmAccel * dt) maxArmAccel
    (by norm_num [maxArmAccel])
  refine ⟨?_, ?_, ?_, ?_⟩ <;>
    simp only [applyRealisticMotorPhysics, initSimState, hz, h1, h2, h3] <;>
    ring

/-- Witness for C10 at the freshly constructed simulator (all channels at
rest): the post-physics actual values are inside every deadband and one tick
leaves position, heading and both arm angles exactly where they were. -/
theorem smallMotion_frame_witness :
    |(applyRealisticMotorPhysics (initSimState 300 200)).actualSpd| ≤ 0.01 ∧
    (updateSimulation (initSimState 300 200)).robotX = 200 ∧
    (updateSimulation (initSimState 300 200)).robotY = 150 ∧
    (updateSimulation (initSimState 300 200)).robotAngle = 0 ∧
    (updateSimulation (initSimState 300 200)).arm1Angle = 0 ∧
    (updateSimulation (initSimState 300 200)).arm2Angle = 0 := by
  obtain ⟨hz1, hz2, hz3, hz4⟩ := applyPhysics_init_actuals 300 200
  have h := smallMotion_frame (initSimState 300 200)
  have h01 : |(applyRealisticMotorPhysics (initSimState 300 200)).actualSpd| ≤ 0.01 := by
    rw [hz1]; norm_num
  have h02 : |(applyRealisticMotorPhysics (initSimState 300 200)).actualTurn| ≤ 0.01 := by
    rw [hz2]; norm_num
  have h03 : |(applyRealisticMotorPhysics (initSimState 300 200)).actualArm1Spd| ≤ 0.1 := by
    rw [hz3]; norm_num
  have h04 : |(applyRealisticMotorPhysics (initSimState 300 200)).actualArm2Spd| ≤ 0.1 := by
    rw [hz4]; norm_num
  obtain ⟨hx, hy, ha⟩ := h.1 ⟨h01, h02⟩
  exact ⟨h01, hx, hy, ha, h.2.1 h03, h.2.2.1 h04⟩

/-! ## C8: the physical state stays inside the workspace and arm bounds -/

/-- The bounded-state invariant of the claim: position inside the 30 px
workspace margin, arm angles inside ±90°, together with the widget's
minimum-size guarantee that makes the clamp intervals non-degenerate. -/
def SimInv (s : SimState) : Prop :=
  300 ≤ s.width ∧ 200 ≤ s.height ∧
  30.0 ≤ s.robotX ∧ s.robotX ≤ s.width - 30.0 ∧
  30.0 ≤ s.robotY ∧ s.robotY ≤ s.height - 30.0 ∧
  -90.0 ≤ s.arm1Angle ∧ s.arm1Angle ≤ 90.0 ∧
  -90.0 ≤ s.arm2Angle ∧ s.arm2Angle ≤ 90.0

lemma clampR_bounds (v lo hi : ℝ) (h : lo ≤ hi) :
    lo ≤ clampR v lo hi ∧ clampR v lo hi ≤ hi :=
  ⟨le_max_left _ _, max_le h (min_le_right _ _)⟩

lemma SimInv_updateRobotPosition {s : SimState} (h : SimInv s) :
    SimInv (updateRobotPosition s) := by
  obtain ⟨hw, hh, hx1, hx2, hy1, hy2, ha1, ha2, hb1, hb2⟩ := h
  unfold updateRobotPosition
  split
  · unfold SimInv
    dsimp only
    refine ⟨hw, hh, ?_, ?_, ?_, ?_, ha1, ha2, hb1, hb2⟩
    · exact (clampR_bounds _ 30.0 (s.width - 30.0) (by linarith)).1
    · exact (clampR_bounds _ 30.0 (s.width - 30.0) (by linarith)).2
    · exact (clampR_bounds _ 30.0 (s.height - 30.0) (by linarith)).1
    · exact (clampR_bounds _ 30.0 (s.height - 30.0) (by linarith)).2
  · exact ⟨hw, hh, hx1, hx2, hy1, hy2, ha1, ha2, hb1, hb2⟩

lemma SimInv_updateArmPositions {s : SimState} (h : SimInv s) :
    SimInv (updateArmPositions s) := by
  obtain ⟨hw, hh, hx1, hx2, hy1, hy2, ha1, ha2, hb1, hb2⟩ := h
  have h90 : (-90.0 : ℝ) ≤ 90.0 := by norm_num
  unfold updateArmPositions
  dsimp only
  split <;> split <;>
    refine ⟨hw, hh, hx1, hx2, hy1, hy2, ?_, ?_, ?_, ?_⟩ <;>
    first
      | exact ha1
      | exact ha2
      | exact hb1
      | exact hb2
      | exact (clampR_bounds _ _ _ h90).1
      | exact (clampR_bounds _ _ _ h90).2

lemma SimInv_applyPhysics {s : SimState} (h : SimInv s) :
    SimInv (applyRealisticMotorPhysics s) := h

/-- C8: on every reachable simulator state — through any command sequence,
any number of ticks, resets and resizes — the position stays inside
`[30, width−30] × [30, height−30]` and both arm angles stay inside
`[−90°, +90°]`. -/
theorem reachable_state_bounded (s : SimState) (h : SimReachable s) :
    SimInv s := by
  induction h with
  | init w h hw hh =>
      refine ⟨hw, hh, ?_, ?_, ?_, ?_, ?_, ?_, ?_, ?_⟩ <;>
        simp only [initSimState] <;> linarith
  | cmd c h ih =>
      obtain ⟨hw, hh, hx1, hx2, hy1, hy2, ha1, ha2, hb1, hb2⟩ := ih
      unfold simUpdateCommand SimInv
      dsimp only
      split
      · exact ⟨hw, hh, hx1, hx2, hy1, hy2, ha1, ha2, hb1, hb2⟩
      · split
        · exact ⟨hw, hh, hx1, hx2, hy1, hy2, ha1, ha2, hb1, hb2⟩
        · split
          · exact ⟨hw, hh, hx1, hx2, hy1, hy2, ha1, ha2, hb1, hb2⟩
          · exact ⟨hw, hh, hx1, hx2, hy1, hy2, ha1, ha2, hb1, hb2⟩
  | tick h ih =>
      exact SimInv_updateArmPositions
        (SimInv_updateRobotPosition (SimInv_applyPhysics ih))
  | reset h ih =>
      obtain ⟨hw, hh, _, _, _, _, _, _, _, _⟩ := ih
      unfold resetSimulation
      refine ⟨hw, hh, le_max_left _ _,
        max_le (by linarith) (min_le_left _ _),
        le_max_left _ _, max_le (by linarith) (min_le_left _ _),
        by norm_num, by norm_num, by norm_num, by norm_num⟩
  | resize w h hw hh hr ih =>
      obtain ⟨_, _, _, _, _, _, ha1, ha2, hb1, hb2⟩ := ih
      unfold simResize SimInv
      dsimp only
      exact ⟨hw, hh,
        (clampR_bounds _ 30.0 (w - 30.0) (by linarith)).1,
        (clampR_bounds _ 30.0 (w - 30.0) (by linarith)).2,
        (clampR_bounds _ 30.0 (h - 30.0) (by linarith)).1,
        (clampR_bounds _ 30.0 (h - 30.0) (by linarith)).2,
        ha1, ha2, hb1, hb2⟩

/-- Witness for C8 at the freshly constructed 300 × 200 simulator. -/
theorem reachable_state_bounded_witness :
    SimInv (initSimState 300 200) ∧ (initSimState 300 200).robotX = 200 ∧
      (initSimState 300 200).arm1Angle = 0 :=
  ⟨reachable_state_bounded _ (SimReachable.init 300 200 (by norm_num) (by norm_num)),
    rfl, rfl⟩

/-! ## C2: the jerk limit and the stored acceleration -/

/-- C2 (amended): per tick, the jerk-limited intermediate value `newAccel`
moves from the previously stored acceleration by at most
`maxAccel × 8 × dt`; the *stored* acceleration is that value additionally
scaled by the friction and damping factors, so consecutive stored values are
not themselves bound by the jerk limit. -/
theorem sCurve_jerk_limited (error maxChange currentAccel maxAccel : ℝ)
    (h : 0 ≤ maxAccel) :
    sCurveProfile error maxChange currentAccel maxAccel =
      jerkLimitedAccel error currentAccel maxAccel *
        (1.0 - frictionCoeff * dt) *
        (0.92 + 0.08 * Real.exp (-|error| * 0.1)) ∧
    |jerkLimitedAccel error currentAccel maxAccel - currentAccel| ≤
      maxAccel * 8.0 * dt := by
  have hmj : (0 : ℝ) ≤ maxAccel * 8.0 * dt := by
    have hdt : (0 : ℝ) ≤ dt := by norm_num [dt]
    positivity
  constructor
  · rfl
  · unfold jerkLimitedAccel
    dsimp only
    split
    · split
      · have hsimp : currentAccel + maxAccel * 8.0 * dt - currentAccel =
            maxAccel * 8.0 * dt := by ring
        rw [hsimp, abs_of_nonneg hmj]
      · have hsimp : currentAccel - maxAccel * 8.0 * dt - currentAccel =
            -(maxAccel * 8.0 * dt) := by ring
        rw [hsimp, abs_neg, abs_of_nonneg hmj]
    · rename_i hcond
      exact not_lt.mp hcond

/-- Witness for C2 (amended) at the drive channel's ceiling with a resting
channel. -/
theorem sCurve_jerk_limited_witness :
    (0 : ℝ) ≤ maxDriveAccel ∧
    |jerkLimitedAccel 0 0 maxDriveAccel - 0| ≤ maxDriveAccel * 8.0 * dt := by
  have h := sCurve_jerk_limited 0 (maxDriveAccel * dt) 0 maxDriveAccel
    (by norm_num [maxDriveAccel])
  exact ⟨by norm_num [maxDriveAccel], h.2⟩

lemma frictionDamping_bounds (e : ℝ) :
    0.919 ≤ (1.0 - frictionCoeff * dt) * (0.92 + 0.08 * Real.exp (-|e| * 0.1)) ∧
    (1.0 - frictionCoeff * dt) * (0.92 + 0.08 * Real.exp (-|e| * 0.1)) ≤ 0.999 := by
  have hexp_pos : 0 < Real.exp (-|e| * 0.1) := Real.exp_pos _
  have hexp_le : Real.exp (-|e| * 0.1) ≤ 1 := by
    rw [show (1 : ℝ) = Real.exp 0 from Real.exp_zero.symm]
    apply Real.exp_le_exp.mpr
    have habs := abs_nonneg e
    nlinarith
  have hf : (1.0 : ℝ) - frictionCoeff * dt = 0.999 := by
    norm_num [frictionCoeff, dt]
  rw [hf]
  constructor <;> nlinarith

lemma jerkLimitedAccel_up (e cur : ℝ) (he : 160/3 ≤ e) (hcur : cur < 672) :
    jerkLimitedAccel e cur maxDriveAccel = cur + 128 := by
  have h800 : maxDriveAccel = (800 : ℝ) := rfl
  unfold jerkLimitedAccel clampR
  dsimp only
  rw [h800]
  have hmj : (800 : ℝ) * 8.0 * dt = 128 := by norm_num [dt]
  rw [hmj]
  have htar : max (-(800 : ℝ)) (min (e * 15.0) 800) = 800 := by
    rw [min_eq_right (by linarith : (800 : ℝ) ≤ e * 15.0),
      max_eq_right (by norm_num : (-(800 : ℝ)) ≤ 800)]
  rw [htar]
  have h1 : (800 : ℝ) - cur > 0 := by linarith
  have h2 : |(800 : ℝ) - cur| > 128 := by
    rw [abs_of_pos h1]; linarith
  rw [if_pos h2, if_pos h1]

lemma jerkLimitedAccel_down (e cur : ℝ) (he : e ≤ -(160/3)) (hcur : -672 < cur) :
    jerkLimitedAccel e cur maxDriveAccel = cur - 128 := by
  have h800 : maxDriveAccel = (800 : ℝ) := rfl
  unfold jerkLimitedAccel clampR
  dsimp only
  rw [h800]
  have hmj : (800 : ℝ) * 8.0 * dt = 128 := by norm_num [dt]
  rw [hmj]
  have htar : max (-(800 : ℝ)) (min (e * 15.0) 800) = -800 := by
    rw [min_eq_left (by linarith : e * 15.0 ≤ (800 : ℝ)),
      max_eq_left (by linarith : e * 15.0 ≤ (-(800 : ℝ)))]
  rw [htar]
  have h1 : (-(800 : ℝ)) - cur < 0 := by linarith
  have h2 : |(-(800 : ℝ)) - cur| > 128 := by
    rw [abs_of_neg h1]; linarith
  rw [if_pos h2, if_neg (by linarith : ¬ ((-(800 : ℝ)) - cur > 0))]

lemma sCurveProfile_up_bounds (e mc cur : ℝ) (he : 160/3 ≤ e)
    (hcur0 : 0 ≤ cur) (hcur : cur < 672) :
    0.919 * (cur + 128) ≤ sCurveProfile e mc cur maxDriveAccel ∧
    sCurveProfile e mc cur maxDriveAccel ≤ 0.999 * (cur + 128) := by
  have hj := jerkLimitedAccel_up e cur he hcur
  have hfd := frictionDamping_bounds e
  have hpos : (0 : ℝ) ≤ cur + 128 := by linarith
  unfold sCurveProfile
  rw [hj]
  constructor
  · nlinarith [mul_nonneg hpos (sub_nonneg.mpr hfd.1)]
  · nlinarith [mul_nonneg hpos (sub_nonneg.mpr hfd.2)]

lemma sCurveProfile_down_bounds (e mc cur : ℝ) (he : e ≤ -(160/3))
    (hcur : 128 ≤ cur) :
    sCurveProfile e mc cur maxDriveAccel ≤ 0.999 * (cur - 128) ∧
    0 ≤ sCurveProfile e mc cur maxDriveAccel := by
  have hj := jerkLimitedAccel_down e cur he (by linarith)
  have hfd := frictionDamping_bounds e
  have hpos : (0 : ℝ) ≤ cur - 128 := by linarith
  unfold sCurveProfile
  rw [hj]
  constructor
  · nlinarith [mul_nonneg hpos (sub_nonneg.mpr hfd.2)]
  · nlinarith [mul_nonneg hpos (sub_nonneg.mpr hfd.1)]

lemma updateSimulation_speed (s : SimState) :
    (updateSimulation s).targetSpd = s.targetSpd ∧
    (updateSimulation s).speedAccel =
      sCurveProfile (s.targetSpd - s.actualSpd) (maxDriveAccel * dt)
        s.speedAccel maxDriveAccel ∧
    (updateSimulation s).actualSpd =
      (s.actualSpd + sCurveProfile (s.targetSpd - s.actualSpd)
          (maxDriveAccel * dt) s.speedAccel maxDriveAccel * dt *
            (1.0 - motorLag)) * 0.995 := by
  obtain ⟨_, _, pf3, _, _, _, pf7, _, _, _, pf11, _⟩ :=
    updateRobotPosition_frame (applyRealisticMotorPhysics s)
  obtain ⟨_, _, _, af4, _, _, _, af8, _, _, _, af12, _⟩ :=
    updateArmPositions_frame (updateRobotPosition (applyRealisticMotorPhysics s))
  exact ⟨(af4.trans pf3).trans rfl, (af12.trans pf11).trans rfl,
    (af8.trans pf7).trans rfl⟩

lemma simUpdateCommand_speed_frame (s : SimState) (c : VarHash) :
    (simUpdateCommand s c).actualSpd = s.actualSpd ∧
    (simUpdateCommand s c).speedAccel = s.speedAccel := by
  unfold simUpdateCommand
  dsimp only
  split
  · exact ⟨rfl, rfl⟩
  · split
    · exact ⟨rfl, rfl⟩
    · split
      · exact ⟨rfl, rfl⟩
      · exact ⟨rfl, rfl⟩

/-- A full-throttle forward drive command (`speed = 10^6`). -/
def c2cmdFwd : VarHash :=
  [("type", .vStr "drive"), ("speed", .vDouble 1000000), ("turn_rate", .vDouble 0)]

/-- A full-throttle reverse drive command (`speed = −10^6`). -/
def c2cmdBack : VarHash :=
  [("type", .vStr "drive"), ("speed", .vDouble (-1000000)), ("turn_rate", .vDouble 0)]

lemma simUpdateCommand_fwd_target (s : SimState) :
    (simUpdateCommand s c2cmdFwd).targetSpd = 1500000 := by
  have hdrive : (toStringAt c2cmdFwd "type" == "drive") = true := by decide
  have hspd : toDoubleAt c2cmdFwd "speed" = 1000000 := by decide
  unfold simUpdateCommand
  dsimp only
  rw [hdrive, if_pos rfl]
  rw [show ((toDoubleAt c2cmdFwd "speed" : ℚ) : ℝ) = 1000000 by rw [hspd]; norm_num]
  norm_num

lemma simUpdateCommand_back_target (s : SimState) :
    (simUpdateCommand s c2cmdBack).targetSpd = -1500000 := by
  have hdrive : (toStringAt c2cmdBack "type" == "drive") = true := by decide
  have hspd : toDoubleAt c2cmdBack "speed" = -1000000 := by decide
  unfold simUpdateCommand
  dsimp only
  rw [hdrive, if_pos rfl]
  rw [show ((toDoubleAt c2cmdBack "speed" : ℚ) : ℝ) = -1000000 by rw [hspd]; push_cast; norm_num]
  norm_num

/-- The three-tick adversarial run used to refute the claim: two ticks of
full forward throttle, then one tick after the target flips to full
reverse. -/
noncomputable def c2s0 : SimState := resetSimulation (initSimState 300 200)

noncomputable def c2u0 : SimState := simUpdateCommand c2s0 c2cmdFwd

noncomputable def c2s1 : SimState := updateSimulation c2u0

noncomputable def c2s2 : SimState := updateSimulation c2s1

noncomputable def c2u2 : SimState := simUpdateCommand c2s2 c2cmdBack

noncomputable def c2s3 : SimState := updateSimulation c2u2

set_option maxHeartbeats 1000000 in
lemma c2_tick1_bounds :
    (117 ≤ c2s1.speedAccel ∧ c2s1.speedAccel ≤ 128) ∧
    (0 ≤ c2s1.actualSpd ∧ c2s1.actualSpd ≤ 3) ∧
    c2s1.targetSpd = 1500000 := by
  have hu0t : c2u0.targetSpd = 1500000 := simUpdateCommand_fwd_target c2s0
  have hu0a : c2u0.actualSpd = 0 :=
    ((simUpdateCommand_speed_frame c2s0 c2cmdFwd).1).trans rfl
  have hu0k : c2u0.speedAccel = 0 :=
    ((simUpdateCommand_speed_frame c2s0 c2cmdFwd).2).trans rfl
  have hk1 : c2s1.speedAccel =
      sCurveProfile (c2u0.targetSpd - c2u0.actualSpd) (maxDriveAccel * dt)
        c2u0.speedAccel maxDriveAccel := (updateSimulation_speed c2u0).2.1
  have ha1 : c2s1.actualSpd =
      (c2u0.actualSpd + sCurveProfile (c2u0.targetSpd - c2u0.actualSpd)
          (maxDriveAccel * dt) c2u0.speedAccel maxDriveAccel * dt *
            (1.0 - motorLag)) * 0.995 := (updateSimulation_speed c2u0).2.2
  have ht1 : c2s1.targetSpd = 1500000 :=
    ((updateSimulation_speed c2u0).1).trans hu0t
  have he1 : 160/3 ≤ c2u0.targetSpd - c2u0.actualSpd := by
    rw [hu0t, hu0a]; norm_num
  have hb1 := sCurveProfile_up_bounds (c2u0.targetSpd - c2u0.actualSpd)
    (maxDriveAccel * dt) c2u0.speedAccel he1 (by rw [hu0k])
    (by rw [hu0k]; norm_num)
  rw [← hk1, hu0k] at hb1
  have hk1l : 117 ≤ c2s1.speedAccel := by linarith [hb1.1]
  have hk1u : c2s1.speedAccel ≤ 128 := by linarith [hb1.2]
  have hdt : dt = 0.02 := rfl
  have hml : motorLag = 0.03 := rfl
  rw [← hk1, hu0a] at ha1
  refine ⟨⟨hk1l, hk1u⟩, ⟨?_, ?_⟩, ht1⟩
  · rw [ha1, hdt, hml]; linarith
  · rw [ha1, hdt, hml]; linarith

set_option maxHeartbeats 1000000 in
lemma c2_tick2_bounds :
    (225 ≤ c2s2.speedAccel ∧ c2s2.speedAccel ≤ 256) ∧
    (0 ≤ c2s2.actualSpd ∧ c2s2.actualSpd ≤ 8) := by
  obtain ⟨⟨hk1l, hk1u⟩, ⟨ha1l, ha1u⟩, ht1⟩ := c2_tick1_bounds
  have hk2 : c2s2.speedAccel =
      sCurveProfile (c2s1.targetSpd - c2s1.actualSpd) (maxDriveAccel * dt)
        c2s1.speedAccel maxDriveAccel := (updateSimulation_speed c2s1).2.1
  have ha2 : c2s2.actualSpd =
      (c2s1.actualSpd + sCurveProfile (c2s1.targetSpd - c2s1.actualSpd)
          (maxDriveAccel * dt) c2s1.speedAccel maxDriveAccel * dt *
            (1.0 - motorLag)) * 0.995 := (updateSimulation_speed c2s1).2.2
  have he2 : 160/3 ≤ c2s1.targetSpd - c2s1.actualSpd := by
    rw [ht1]; linarith only [ha1u]
  have hb2 := sCurveProfile_up_bounds (c2s1.targetSpd - c2s1.actualSpd)
    (maxDriveAccel * dt) c2s1.speedAccel he2
    (by linarith only [hk1l]) (by linarith only [hk1u])
  rw [← hk2] at hb2
  have hk2l : 225 ≤ c2s2.speedAccel := by linarith only [hb2.1, hk1l]
  have hk2u : c2s2.speedAccel ≤ 256 := by linarith only [hb2.2, hk1u]
  have hdt : dt = 0.02 := rfl
  have hml : motorLag = 0.03 := rfl
  rw [← hk2] at ha2
  refine ⟨⟨hk2l, hk2u⟩, ?_, ?_⟩
  · rw [ha2, hdt, hml]; linarith only [ha1l, hk2l]
  · rw [ha2, hdt, hml]; linarith only [ha1u, hk2u]

set_option maxHeartbeats 1000000 in
/-- C2 counterexample: on the third tick of the adversarial run the stored
drive acceleration changes by more than `maxDriveAccel × 8 × dt = 128`
between consecutive ticks — the friction/damping scaling applied after the
jerk limiter breaks the claimed bound on the stored value. -/
theorem storedAccel_jerk_bound_counterexample :
    |c2s3.speedAccel - c2s2.speedAccel| > maxDriveAccel * 8.0 * dt := by
  obtain ⟨⟨hk2l, hk2u⟩, ⟨ha2l, ha2u⟩⟩ := c2_tick2_bounds
  have hu2t : c2u2.targetSpd = -1500000 := simUpdateCommand_back_target c2s2
  have hu2a : c2u2.actualSpd = c2s2.actualSpd :=
    (simUpdateCommand_speed_frame c2s2 c2cmdBack).1
  have hu2k : c2u2.speedAccel = c2s2.speedAccel :=
    (simUpdateCommand_speed_frame c2s2 c2cmdBack).2
  have hk3 : c2s3.speedAccel =
      sCurveProfile (c2u2.targetSpd - c2u2.actualSpd) (maxDriveAccel * dt)
        c2u2.speedAccel maxDriveAccel := (updateSimulation_speed c2u2).2.1
  have he3 : c2u2.targetSpd - c2u2.actualSpd ≤ -(160/3) := by
    rw [hu2t, hu2a]; linarith only [ha2l]
  have hb3 := sCurveProfile_down_bounds (c2u2.targetSpd - c2u2.actualSpd)
    (maxDriveAccel * dt) c2u2.speedAccel he3
    (by rw [hu2k]; linarith only [hk2l])
  rw [← hk3, hu2k] at hb3
  have hrhs : maxDriveAccel * 8.0 * dt = 128 := by norm_num [maxDriveAccel, dt]
  rw [hrhs]
  have hdrop : c2s3.speedAccel ≤ c2s2.speedAccel := by
    linarith only [hb3.1, hk2l]
  rw [abs_sub_comm, abs_of_nonneg (sub_nonneg.mpr hdrop)]
  linarith only [hb3.1, hk2l]

end CodLess
